import Mathlib

/-!
Shallow embedding of the `scribble` Measurement Set plotter
(`src/scribble/plot_gui.py`, `src/scribble/__main__.py`,
`src/build/lib/scribble/plot_gui.py`) and proofs about the claims of its
specification.

Modelling conventions:
* A casacore table cell is either a number or a boolean (`Cell`); a column is
  a numpy array of dimension 1, 2 or 3 (`NDArray`); `getcol` looks a column
  up by name and fails (numpy/casacore raise) with `none`.
* Python exceptions are modelled by `Option`: a callback step that raises
  yields `none` at the point of the raise; callbacks that mutate widget
  state before a possible raise are modelled as total cascades so that the
  already-performed mutations are kept.
* The datashader/PIL rasterization pipeline is external library code; the
  rendered image is modelled by recording exactly the inputs handed to the
  rasterizer (the DataFrame and the two axis column names, `RenderSource`).
* `pandas.DataFrame(arrs)` on a dict of arrays raises when the arrays have
  unequal lengths; `mkDataFrame` returns `none` in that case.
-/

namespace Scribble

/-- A table cell: numeric data (visibility samples, times, ids, ...) or a
boolean (the FLAG column).  Complex visibility values are represented
abstractly by integers; no claim depends on cell arithmetic. -/
inductive Cell where
  | num : Int → Cell
  | bl : Bool → Cell
deriving DecidableEq, Repr

/-- `~cell` / iterating flags: a cell read as a boolean; numeric cells are
not valid flag values in the MS format (FLAG is a Bool column). -/
def Cell.asBool : Cell → Option Bool
  | .bl b => some b
  | .num _ => none

/-- A cell read as an integer (CORR_TYPE entries). -/
def Cell.asInt : Cell → Option Int
  | .num n => some n
  | .bl _ => none

/-- A numpy array of dimension 1, 2 or 3, as returned by `table.getcol`. -/
inductive NDArray (α : Type) where
  | d1 : List α → NDArray α
  | d2 : List (List α) → NDArray α
  | d3 : List (List (List α)) → NDArray α
deriving DecidableEq, Repr

/-- `arr.ndim`. -/
def NDArray.ndim : NDArray α → Nat
  | .d1 _ => 1
  | .d2 _ => 2
  | .d3 _ => 3

/-- `arr.flatten()`: row-major flattening (for 1-D arrays the identity). -/
def NDArray.flatten : NDArray α → List α
  | .d1 xs => xs
  | .d2 xss => xss.flatten
  | .d3 xsss => (xsss.map List.flatten).flatten

/-- `arr[:, :, i]` on a 3-D array: pick correlation `i` of every
(row, channel); `none` when some innermost row is too short (IndexError). -/
def sliceCorr3 (i : Nat) (xsss : List (List (List α))) : Option (List (List α)) :=
  xsss.mapM (fun xss => xss.mapM (fun xs => xs.get? i))

/-- The main table of a Measurement Set: named column data plus the column
descriptor map (`t.coldesc()`), where a column's entry is its fixed
`'shape'` (columns without a fixed shape are simply absent from `desc`). -/
structure MSTable where
  cols : List (String × NDArray Cell)
  desc : List (String × List Nat)
deriving DecidableEq

/-- `t.colnames()`. -/
def MSTable.colnames (t : MSTable) : List String := t.cols.map Prod.fst

/-- `t.getcol(c)`; `none` when the column does not exist (casacore raises). -/
def MSTable.getcol (t : MSTable) (c : String) : Option (NDArray Cell) :=
  t.cols.lookup c

/-- `VIS_COLUMNS = ["DATA", "CORRECTED_DATA", "MODEL_DATA", "RESIDUAL_DATA"]`
(plot_gui.py line 14). -/
def VIS_COLUMNS : List String :=
  ["DATA", "CORRECTED_DATA", "MODEL_DATA", "RESIDUAL_DATA"]

/-- The per-column body of the loop in `load_ms_data` (lines 42-52): a
visibility column is sliced to the chosen correlation when it is 3-D and a
correlation index is given, then flattened; any other column is flattened
as is. -/
def processCol (t : MSTable) (corrIdx : Option Nat) (c : String) : Option (List Cell) :=
  match t.getcol c with
  | none => none
  | some data =>
    if c ∈ VIS_COLUMNS then
      match data, corrIdx with
      | .d3 xsss, some i => (sliceCorr3 i xsss).map List.flatten
      | d, _ => some d.flatten
    else
      some data.flatten

/-- Reading the flag column in `load_ms_data` (lines 55-59): fetch it, slice
to the chosen correlation when 3-D, flatten, and read every cell as a
boolean.  These are the raw flag values, before the `~` negation. -/
def flagVals (t : MSTable) (corrIdx : Option Nat) (fc : String) : Option (List Bool) :=
  match t.getcol fc with
  | none => none
  | some fl =>
    match fl, corrIdx with
    | .d3 xsss, some i =>
      match sliceCorr3 i xsss with
      | none => none
      | some sl => (NDArray.d2 sl).flatten.mapM Cell.asBool
    | f, _ => f.flatten.mapM Cell.asBool

/-- The kept elements of a numpy boolean-mask selection `xs[mask]`
(assuming matching lengths): the elements whose mask entry is `true`,
in order. -/
def maskKeep : List Bool → List Cell → List Cell
  | b :: bs, x :: xs => if b then x :: maskKeep bs xs else maskKeep bs xs
  | _, _ => []

/-- `xs[mask]` for a boolean mask: numpy raises (IndexError) when the mask
length does not match the array length. -/
def maskSelect (mask : List Bool) (xs : List Cell) : Option (List Cell) :=
  if xs.length = mask.length then some (maskKeep mask xs) else none

/-- Spec-side reformulation (GLOSSARY "Flag: a boolean per-sample marker
indicating the sample should be excluded from analysis"): keep exactly the
samples whose flag is `false`, unchanged and in their original order. -/
def keepUnflagged : List Bool → List Cell → List Cell
  | f :: fs, x :: xs => if f then keepUnflagged fs xs else x :: keepUnflagged fs xs
  | _, _ => []

/-- The `for c in usecols` loop of `load_ms_data` building `arrs`; the loop
raises (yields `none`) as soon as one column fails to load. -/
def collectCols (t : MSTable) (corrIdx : Option Nat) : List String → Option (List (String × List Cell))
  | [] => some []
  | c :: cs =>
    match processCol t corrIdx c with
    | none => none
    | some xs =>
      match collectCols t corrIdx cs with
      | none => none
      | some rest => some ((c, xs) :: rest)

/-- The `for k in arrs.keys(): arrs[k] = arrs[k][mask]` loop
(lines 60-61). -/
def applyMaskAll (mask : List Bool) : List (String × List Cell) → Option (List (String × List Cell))
  | [] => some []
  | (k, xs) :: rest =>
    match maskSelect mask xs with
    | none => none
    | some ys =>
      match applyMaskAll mask rest with
      | none => none
      | some rest2 => some ((k, ys) :: rest2)

/-- pandas' requirement on `DataFrame(dict-of-arrays)`: all arrays have one
common length. -/
def sameLengths : List (String × List Cell) → Bool
  | [] => true
  | (_, xs) :: rest => rest.all (fun p => p.2.length == xs.length)

/-- A pandas DataFrame built from named equal-length columns. -/
structure DataFrame where
  cols : List (String × List Cell)
deriving DecidableEq

/-- `pd.DataFrame(arrs)`: raises (ValueError) when the arrays have unequal
lengths. -/
def mkDataFrame (arrs : List (String × List Cell)) : Option DataFrame :=
  if sameLengths arrs then some ⟨arrs⟩ else none

/-- `len(df)`: number of rows. -/
def DataFrame.nrows (df : DataFrame) : Nat :=
  match df.cols with
  | [] => 0
  | (_, xs) :: _ => xs.length

/-- `df.empty`: no rows (or no columns at all). -/
def DataFrame.isEmpty (df : DataFrame) : Bool :=
  df.cols.all (fun p => p.2.isEmpty)

/-- `df[c]`. -/
def DataFrame.lookup (df : DataFrame) (c : String) : Option (List Cell) :=
  df.cols.lookup c

/-- `load_ms_data(ms_path, usecols, corr_idx, flag_col)` (lines 39-63),
with the already-opened table passed in place of the path: load every
requested column (slicing visibility columns to the chosen correlation),
then, when a flag column is named, non-empty (Python truthiness) and
present, select the samples whose flag is `False` (`mask = ~flags`) in
every loaded column, and build the DataFrame. -/
def load_ms_data (t : MSTable) (usecols : List String) (corrIdx : Option Nat)
    (flagCol : Option String) : Option DataFrame :=
  match collectCols t corrIdx usecols with
  | none => none
  | some arrs =>
    let arrs2 : Option (List (String × List Cell)) :=
      match flagCol with
      | some fc =>
        if fc ≠ "" ∧ fc ∈ t.colnames then
          match flagVals t corrIdx fc with
          | none => none
          | some flags => applyMaskAll (flags.map (fun b => !b)) arrs
        else some arrs
      | none => some arrs
    match arrs2 with
    | none => none
    | some l => mkDataFrame l

/-- The per-column record built by `load_ms_columns` (lines 30-35):
`shape` from the descriptor, `n_corr = shape[-1] if len(shape) >= 1 else 1`,
`n_chan = shape[-2] if len(shape) >= 2 else 1`. -/
structure VisInfo where
  shape : List Nat
  n_corr : Nat
  n_chan : Nat
deriving DecidableEq, Repr

/-- The record built for one visibility column in `load_ms_columns`
(lines 32-35): `shape = desc[c].get('shape', [])`,
`n_corr = shape[-1] if len(shape) >= 1 else 1`,
`n_chan = shape[-2] if len(shape) >= 2 else 1`. -/
def visInfoOf (t : MSTable) (c : String) : VisInfo :=
  let shape := (t.desc.lookup c).getD []
  { shape := shape,
    n_corr := if shape.length ≥ 1 then shape.getLastD 1 else 1,
    n_chan := if shape.length ≥ 2 then (shape.get? (shape.length - 2)).getD 1 else 1 }

/-- `load_ms_columns(ms_path)` (lines 25-37), with the opened table passed
in: the column names and, for every `VIS_COLUMNS` member present, its
shape record. -/
def load_ms_columns (t : MSTable) : List String × List (String × VisInfo) :=
  (t.colnames, VIS_COLUMNS.filterMap (fun c =>
    if c ∈ t.colnames then some (c, visInfoOf t c) else none))

/-- `CORR_MAP` of `get_corr_labels` (lines 71-72). -/
def CORR_MAP : List (Int × String) :=
  [(5, "RR"), (6, "RL"), (7, "LR"), (8, "LL"),
   (9, "XX"), (10, "XY"), (11, "YX"), (12, "YY")]

/-- `CORR_MAP.get(c, str(c))`. -/
def corrLabel (c : Int) : String :=
  (CORR_MAP.lookup c).getD (toString c)

/-- The pieces of the operating system the program touches:
directory listing, directory/existence tests and `os.path.abspath`. -/
structure FileSystem where
  listdir : String → List String
  isDir : String → Bool
  pathExists : String → Bool
  abspath : String → String

/-- `os.path.join(a, b)` for a relative second component and a first
component without a trailing separator (the only uses in this program). -/
def pjoin (a b : String) : String := a ++ "/" ++ b

/-- The program's environment: the filesystem plus the casacore tables
living at each path (`none` when `table(path)` raises). -/
structure World where
  fs : FileSystem
  tables : String → Option MSTable

/-- `table(os.path.join(ms_path, "POLARIZATION")).getcol("CORR_TYPE")[0]`
(lines 69-70): `none` when any step raises (no subtable, no such column,
wrong shape, no row 0, or non-integer entries). -/
def readCorrTypes (w : World) (msPath : String) : Option (List Int) :=
  match w.tables (pjoin msPath "POLARIZATION") with
  | none => none
  | some pt =>
    match pt.getcol "CORR_TYPE" with
    | none => none
    | some (.d2 (row0 :: _)) => row0.mapM Cell.asInt
    | some _ => none

/-- `get_corr_labels(ms_path, vis_col)` (lines 65-81): map the CORR_TYPE
codes through `CORR_MAP` (defaulting to `str(code)`); on any exception fall
back to labels `"0", "1", ...` up to `vis_colinfo.get(vis_col, {}).get('n_corr', 4)`
from `load_ms_columns` — which itself propagates its exception (`none`)
when the main table cannot be opened. -/
def get_corr_labels (w : World) (msPath : String) (visCol : String) : Option (List String) :=
  match readCorrTypes w msPath with
  | some corrTypes => some (corrTypes.map corrLabel)
  | none =>
    match w.tables msPath with
    | none => none
    | some t =>
      let visinfo := (load_ms_columns t).2
      let n_corr := ((visinfo.lookup visCol).map VisInfo.n_corr).getD 4
      some ((List.range n_corr).map (fun i => toString i))

/-- `list_possible_ms_dirs(path)` (lines 16-23): the entries `f` of
`listdir(path)` such that `path/f` is a directory containing an entry named
`TABLES`. -/
def list_possible_ms_dirs (fs : FileSystem) (path : String) : List String :=
  (fs.listdir path).filter (fun f =>
    fs.isDir (pjoin path f) && fs.pathExists (pjoin (pjoin path f) "TABLES"))

/-- The inputs handed to the external rasterizer
(`ds.Canvas(...).points(df, xcol, ycol)` and the subsequent shading,
lines 181-193): the rendered image is a pure function of these, so the
`render.data_source` contents are modelled by them. -/
structure RenderSource where
  df : DataFrame
  xcol : String
  ycol : String
deriving DecidableEq

/-- A figure as `bokeh.io.export.export_png` sees it: its title and its
current render contents. -/
abbrev Figure := String × Option RenderSource

/-- The widget/document state of the main-version bokeh app
(plot_gui.py lines 83-219). `exports` records the PNG files written by the
export callback (filename and exported figure). -/
structure MainState where
  msOptions : List String
  msValue : Option String
  selectedMs : Option String
  axisOpts : List String
  visColInfo : List (String × VisInfo)
  selectXOpts : List String
  selectXVal : Option String
  selectYOpts : List String
  selectYVal : Option String
  groupOpts : List String
  groupVal : String
  corrOptions : List String
  corrValue : List String
  corrVisible : Bool
  plotDisabled : Bool
  exportDisabled : Bool
  status : String
  title : String
  render : Option RenderSource
  exports : List (String × Figure)
  flagCol : Option String
deriving DecidableEq

/-- `update_ms_list` (lines 105-118).  Setting `ms_select.value = None`
fires `ms_chosen` with a falsy value, which does nothing. -/
def update_ms_list (w : World) (st : MainState) : MainState :=
  { st with
    msOptions := list_possible_ms_dirs w.fs ".",
    msValue := none,
    axisOpts := [],
    visColInfo := [],
    selectXOpts := [],
    selectYOpts := [],
    groupOpts := ["None"],
    corrOptions := [],
    plotDisabled := true,
    exportDisabled := true,
    status := "",
    title := "Scribble Plot",
    render := none }

/-- `bokeh_app(doc)` (lines 83-219): the widgets as constructed
(lines 85-103), then the initial `update_ms_list()` call (line 209). -/
def bokeh_app (w : World) : MainState :=
  let st0 : MainState :=
    { msOptions := list_possible_ms_dirs w.fs ".",
      msValue := none,
      selectedMs := none,
      axisOpts := [],
      visColInfo := [],
      selectXOpts := [],
      selectXVal := none,
      selectYOpts := [],
      selectYVal := none,
      groupOpts := ["None"],
      groupVal := "None",
      corrOptions := [],
      corrValue := [],
      corrVisible := false,
      plotDisabled := true,
      exportDisabled := true,
      status := "",
      title := "Scribble Plot",
      render := none,
      exports := [],
      flagCol := none }
  update_ms_list w st0

/-- `app_wrapper(doc)` inside `plot_gui` (lines 224-230): when an `ms_path`
was given, a local `selected_ms` dict is created — and never passed to
`bokeh_app`, which is called exactly as in the other branch. -/
def app_wrapper (w : World) (msPath : Option String) : MainState :=
  match msPath with
  | some p =>
    let _selected_ms : Option String := some p
    bokeh_app w
  | none => bokeh_app w

/-- `plot_gui(ms_path)` (lines 221-240), observed through the bokeh
application it serves at `/`: the initial document state produced for a
client, as a function of the environment. -/
def plot_gui (msPath : Option String) : World → MainState :=
  fun w => app_wrapper w msPath

/-- `value in vis_colinfo` for a Select widget value that may be `None`. -/
def memVisCol (v : Option String) (visinfo : List (String × VisInfo)) : Bool :=
  match v with
  | some x => (visinfo.lookup x).isSome
  | none => false

/-- `update_corr_visibility` (lines 143-157).  `select_corr.visible` is
assigned before the labels are fetched; a raise inside `get_corr_labels`
(or a missing MS path) aborts the callback with the visibility already
updated; `corr_labels[0]` on an empty label list raises likewise. -/
def update_corr_visibility (w : World) (st : MainState) : MainState :=
  let inx := memVisCol st.selectXVal st.visColInfo
  let iny := memVisCol st.selectYVal st.visColInfo
  let anyVis := inx || iny
  let st1 := { st with corrVisible := anyVis }
  if anyVis then
    let viscol := ((if inx then st.selectXVal else st.selectYVal)).getD ""
    match st.selectedMs with
    | none => st1
    | some p =>
      match get_corr_labels w p viscol with
      | none => st1
      | some labels =>
        let st2 := { st1 with corrOptions := labels }
        if st.corrValue.isEmpty || !(st.corrValue.all (fun v => labels.contains v)) then
          match labels.get? 0 with
          | none => st2
          | some l0 => { st2 with corrValue := [l0] }
        else st2
  else
    { st1 with corrOptions := [], corrValue := [] }

/-- `ms_chosen(attr, old, new)` (lines 120-141), as a total cascade: every
possible raise (table open, `axis_opts[0]`, `axis_opts[1]`) returns the
state mutated so far.  Assigning `select_x.value` / `select_y.value` fires
the on-change handler, i.e. `update_corr_visibility`, which is therefore
run after each assignment and once more explicitly (line 136);
`flag_col` is set last (lines 140-141). -/
def ms_chosen (w : World) (st : MainState) : MainState :=
  match st.msValue with
  | none => st
  | some v =>
    if v = "" then st
    else
      let msPath := w.fs.abspath v
      let st1 := { st with selectedMs := some msPath }
      match w.tables msPath with
      | none => st1
      | some t =>
        let (colnames, visinfo) := load_ms_columns t
        let axisOpts := colnames.filter (fun c => c ≠ "FLAG")
        let st2 := { st1 with axisOpts := axisOpts, visColInfo := visinfo,
                              selectXOpts := axisOpts }
        match axisOpts.get? 0 with
        | none => st2
        | some x0 =>
          let st3 := update_corr_visibility w { st2 with selectXVal := some x0 }
          let st4 := { st3 with selectYOpts := axisOpts }
          match axisOpts.get? 1 with
          | none => st4
          | some y1 =>
            let st5 := update_corr_visibility w { st4 with selectYVal := some y1 }
            let st6 := { st5 with groupOpts := "None" :: axisOpts, groupVal := "None" }
            let st7 := update_corr_visibility w st6
            { st7 with plotDisabled := false, exportDisabled := false,
                       flagCol := if "FLAG" ∈ colnames then some "FLAG" else none }

/-- `corr_labels.index(usecorr[0])` — Python `list.index` finds the first
occurrence and raises ValueError when absent. -/
def pyIndex (xs : List String) (x : String) : Option Nat :=
  xs.findIdx? (fun y => y = x)

/-- The `corr_idx` computation of `run_plot` (lines 166-170): only when the
correlation selector is visible and its selection non-empty is an index
computed, from the FIRST selected label; outer `none` models the
`list.index` ValueError. -/
def corrIdxComputed (visible : Bool) (options value : List String) : Option (Option Nat) :=
  match visible, value with
  | true, v0 :: _ =>
    match pyIndex options v0 with
    | some i => some (some i)
    | none => none
  | _, _ => some none

/-- The plot-title suffix `(f" ({usecorr[0]})" if usecorr else "")`
(line 194). -/
def corrTitleSuffix : Option (List String) → String
  | some (c0 :: _) => " (" ++ c0 ++ ")"
  | _ => ""

/-- Python-set insertion, modelled as an order-fixing dedup (run_plot's
column set is only ever iterated; no claim depends on its order). -/
def setInsert (xs : List String) (x : String) : List String :=
  if x ∈ xs then xs else xs ++ [x]

/-- The `usecols` set built by `run_plot` (lines 171-176): x and y columns,
the truthy group column, the truthy flag column, and (redundantly) any
visibility column equal to x or y. -/
def usecolsOf (xcol ycol : String) (groupcol flagCol : Option String) : List String :=
  let s := setInsert (setInsert [] xcol) ycol
  let s := match groupcol with
    | some g => if g ≠ "" then setInsert s g else s
    | none => s
  let s := match flagCol with
    | some f => if f ≠ "" then setInsert s f else s
    | none => s
  VIS_COLUMNS.foldl (fun acc v => if xcol = v ∨ ycol = v then setInsert acc v else acc) s

/-- `groupcol = select_group.value if select_group.value != "None" else None`
(line 165). -/
def groupColOf (st : MainState) : Option String :=
  if st.groupVal ≠ "None" then some st.groupVal else none

/-- The tail of `run_plot` once the DataFrame is loaded (lines 178-195):
an empty DataFrame only sets the "no data" status; otherwise the render
source, the title (with the first selected correlation appended) and the
status are updated. -/
def plot_outcome (xcol ycol : String) (usecorr : Option (List String))
    (df : DataFrame) (st : MainState) : MainState :=
  if df.isEmpty then
    { st with status := "No data to plot (possible all flagged/filtered?)" }
  else
    { st with
      render := some { df := df, xcol := xcol, ycol := ycol },
      title := xcol ++ " vs " ++ ycol ++ corrTitleSuffix usecorr,
      status := "Plotted " ++ toString df.nrows ++ " points." }

/-- `run_plot()` (lines 159-195).  `none` models an uncaught exception
raised before any widget mutation (failed `list.index`, table open,
`load_ms_data`, or a `None` axis selection reaching `getcol`); with no MS
selected only the status is set; otherwise the outcome is
`plot_outcome`. -/
def run_plot (w : World) (st : MainState) : Option MainState :=
  match st.selectedMs with
  | none => some { st with status := "No Measurement Set selected!" }
  | some msPath =>
    match st.selectXVal, st.selectYVal with
    | some xcol, some ycol =>
      let usecorr : Option (List String) :=
        if st.corrVisible then some st.corrValue else none
      match corrIdxComputed st.corrVisible st.corrOptions st.corrValue with
      | none => none
      | some corrIdx =>
        let usecols := usecolsOf xcol ycol (groupColOf st) st.flagCol
        match w.tables msPath with
        | none => none
        | some t =>
          (load_ms_data t usecols corrIdx st.flagCol).map
            (fun df => plot_outcome xcol ycol usecorr df st)
    | _, _ => none

/-- `export_png()` (lines 197-200): write the current figure to the fixed
filename and report it in the status line. -/
def export_png (st : MainState) : MainState :=
  { st with
    exports := st.exports ++ [("scribble_export.png", (st.title, st.render))],
    status := "Plot exported to scribble_export.png" }

/-- The plot controls built by the build-version `on_load`
(src/build/lib/scribble/plot_gui.py lines 97-113): the fields the claims
speak to (the correlation selector's initialisation is driven by the same
`update_corr_visibility` logic as the main version). -/
structure BuildControls where
  axisOpts : List String
  selectXVal : String
  selectYVal : String
  groupOpts : List String
  flagCol : Option String
  visColumnsAvail : List String
deriving DecidableEq

/-- The build-version document: status line and the (possibly absent)
plot-controls layout. -/
structure BuildState where
  status : String
  plotLayout : Option BuildControls
deriving DecidableEq

/-- The build-version `on_load()` (src/build/lib/scribble/plot_gui.py
lines 88-193), as a total cascade: an invalid path (empty after `strip`,
not a directory, or without a `TABLES` entry) sets the red error status and
clears the plot layout; otherwise the green status is set first, and a
raise while opening the table or indexing `axis_opts` leaves the layout as
it was. -/
def on_load (w : World) (inputVal : String) (st : BuildState) : BuildState :=
  let path := inputVal.trim
  if path = "" || !(w.fs.isDir path) || !(w.fs.pathExists (pjoin path "TABLES")) then
    { st with
      status := "<span style=\x27color:red;\x27>Not a valid MS directory path!</span>",
      plotLayout := none }
  else
    let st1 := { st with
      status := "<b style=\x27color:green;\x27>Loaded: " ++ w.fs.abspath path ++ "</b>" }
    match w.tables path with
    | none => st1
    | some t =>
      let (colnames, _visinfo) := load_ms_columns t
      let axisOpts := colnames.filter (fun c => c ≠ "FLAG")
      let flagCol := if "FLAG" ∈ colnames then some "FLAG" else none
      let visAvail := VIS_COLUMNS.filter (fun c => c ∈ colnames)
      match axisOpts.get? 0, axisOpts.get? 1 with
      | some x0, some y1 =>
        { st1 with plotLayout := some (BuildControls.mk axisOpts x0 y1
            ("None" :: axisOpts) flagCol visAvail) }
      | _, _ => st1

/-! ### Helper lemmas -/

theorem maskKeep_map_not (flags : List Bool) (xs : List Cell) :
    maskKeep (flags.map (fun b => !b)) xs = keepUnflagged flags xs := by
  induction flags generalizing xs with
  | nil => cases xs <;> rfl
  | cons f fs ih =>
    cases xs with
    | nil => cases f <;> rfl
    | cons x xs =>
      cases f <;> simp [maskKeep, keepUnflagged, ih]

theorem keepUnflagged_length (flags : List Bool) (xs : List Cell)
    (h : xs.length = flags.length) :
    (keepUnflagged flags xs).length = flags.count false := by
  induction flags generalizing xs with
  | nil => cases xs <;> simp_all [keepUnflagged]
  | cons f fs ih =>
    cases xs with
    | nil => simp at h
    | cons x xs =>
      simp only [List.length_cons, Nat.succ_inj] at h
      cases f <;> simp [keepUnflagged, ih xs h, List.count_cons]

theorem collectCols_eq_map (t : MSTable) (ci : Option Nat) (cs : List String)
    (h : ∀ c ∈ cs, (processCol t ci c).isSome) :
    collectCols t ci cs = some (cs.map (fun c => (c, (processCol t ci c).getD []))) := by
  induction cs with
  | nil => rfl
  | cons c cs ih =>
    obtain ⟨xs, hxs⟩ := Option.isSome_iff_exists.mp (h c (by simp))
    have hrest := ih (fun d hd => h d (List.mem_cons_of_mem _ hd))
    simp [collectCols, hxs, hrest]

theorem applyMaskAll_eq_map (mask : List Bool) (l : List (String × List Cell))
    (h : ∀ p ∈ l, p.2.length = mask.length) :
    applyMaskAll mask l = some (l.map (fun p => (p.1, maskKeep mask p.2))) := by
  induction l with
  | nil => rfl
  | cons p l ih =>
    obtain ⟨k, xs⟩ := p
    have hk : xs.length = mask.length := h (k, xs) (by simp)
    have hrest := ih (fun q hq => h q (List.mem_cons_of_mem _ hq))
    simp [applyMaskAll, maskSelect, hk, hrest]

theorem lookup_map_pair (g : String → List Cell) (cs : List String) (c : String)
    (h : c ∈ cs) :
    (cs.map (fun d => (d, g d))).lookup c = some (g c) := by
  induction cs with
  | nil => cases h
  | cons d ds ih =>
    by_cases hcd : c = d
    · subst hcd
      simp [List.lookup]
    · have : c ∈ ds := by
        rcases List.mem_cons.mp h with h1 | h1
        · exact absurd h1 hcd
        · exact h1
      have hbeq : (c == d) = false := by
        simp [hcd]
      simp [List.lookup, hbeq, ih this]

theorem sameLengths_of_const (l : List (String × List Cell)) (n : Nat)
    (h : ∀ p ∈ l, p.2.length = n) :
    sameLengths l = true := by
  cases l with
  | nil => rfl
  | cons p l =>
    obtain ⟨k, xs⟩ := p
    have hk : xs.length = n := h (k, xs) (by simp)
    simp only [sameLengths, List.all_eq_true]
    intro q hq
    have := h q (List.mem_cons_of_mem _ hq)
    simp [this, hk]

/-- Core lemma for the flag-filtering claims: with a well-typed FLAG column
and requested columns whose flattened length matches the flag array,
`load_ms_data` succeeds and every column is exactly the unflagged samples
of its flattened (and corr-sliced) data, in order. -/
theorem load_ms_data_flag_spec (t : MSTable) (ci : Option Nat) (cs : List String)
    (flags : List Bool)
    (hmem : "FLAG" ∈ t.colnames)
    (hfv : flagVals t ci "FLAG" = some flags)
    (hcols : ∀ c ∈ cs, ∃ xs, processCol t ci c = some xs ∧ xs.length = flags.length) :
    load_ms_data t cs ci (some "FLAG") =
      some ⟨cs.map (fun c => (c, keepUnflagged flags ((processCol t ci c).getD [])))⟩ := by
  have hsome : ∀ c ∈ cs, (processCol t ci c).isSome := by
    intro c hc
    obtain ⟨xs, hxs, _⟩ := hcols c hc
    simp [hxs]
  have hcollect := collectCols_eq_map t ci cs hsome
  have hlen : ∀ p ∈ cs.map (fun c => (c, (processCol t ci c).getD [])),
      p.2.length = (flags.map (fun b => !b)).length := by
    intro p hp
    obtain ⟨c, hc, rfl⟩ := List.mem_map.mp hp
    obtain ⟨xs, hxs, hlxs⟩ := hcols c hc
    simp [hxs, hlxs]
  have hmask := applyMaskAll_eq_map (flags.map (fun b => !b)) _ hlen
  have hkeep2 : ∀ p ∈ cs.map (fun c => (c, keepUnflagged flags ((processCol t ci c).getD []))),
      p.2.length = flags.count false := by
    intro p hp
    obtain ⟨c, hc, rfl⟩ := List.mem_map.mp hp
    obtain ⟨xs, hxs, hlxs⟩ := hcols c hc
    exact keepUnflagged_length flags _ (by simp [hxs, hlxs])
  have hcond : ("FLAG" : String) ≠ "" ∧ "FLAG" ∈ t.colnames := ⟨by decide, hmem⟩
  have hcomp : ((fun p : String × List Cell =>
      (p.1, maskKeep (flags.map (fun b => !b)) p.2)) ∘
      (fun c => (c, (processCol t ci c).getD []))) =
      (fun c => (c, keepUnflagged flags ((processCol t ci c).getD []))) := by
    funext c
    simp [Function.comp, maskKeep_map_not]
  simp only [load_ms_data, hcollect, if_pos hcond, hfv, hmask, List.map_map, hcomp,
    mkDataFrame, if_pos (sameLengths_of_const _ (flags.count false) hkeep2)]

theorem lookup_filterMap_isSome (l cn : List String) (f : String → VisInfo) (c : String) :
    (((l.filterMap (fun d => if d ∈ cn then some (d, f d) else none)).lookup c).isSome) ↔
      (c ∈ l ∧ c ∈ cn) := by
  induction l with
  | nil => simp
  | cons d ds ih =>
    by_cases hd : d ∈ cn
    · simp only [List.filterMap_cons, if_pos hd]
      by_cases hcd : c = d
      · subst hcd
        simp [List.lookup, hd]
      · have hbeq : (c == d) = false := by simp [hcd]
        simp [List.lookup, hbeq, ih, hcd]
    · simp only [List.filterMap_cons, if_neg hd]
      by_cases hcd : c = d
      · subst hcd
        simp [ih, hd]
      · simp [ih, hcd]

/-- The reject branch of the build-version `on_load`: any path that (after
stripping) is not an existing directory containing a `TABLES` entry sets
the red error status, clears the plot layout and loads nothing. -/
theorem on_load_reject (w : World) (v : String) (st : BuildState)
    (h : ¬ (w.fs.isDir v.trim = true ∧ w.fs.pathExists (pjoin v.trim "TABLES") = true)) :
    on_load w v st = { st with
      status := "<span style=\x27color:red;\x27>Not a valid MS directory path!</span>",
      plotLayout := none } := by
  by_cases hb : w.fs.isDir v.trim = true
  · by_cases hc : w.fs.pathExists (pjoin v.trim "TABLES") = true
    · exact absurd ⟨hb, hc⟩ h
    · have hc' : w.fs.pathExists (pjoin v.trim "TABLES") = false := by
        cases hcc : w.fs.pathExists (pjoin v.trim "TABLES")
        · rfl
        · exact absurd hcc hc
      simp [on_load, hc']
  · have hb' : w.fs.isDir v.trim = false := by
      cases hbb : w.fs.isDir v.trim
      · rfl
      · exact absurd hbb hb
    simp [on_load, hb']

theorem ucv_axisOpts (w : World) (st : MainState) :
    (update_corr_visibility w st).axisOpts = st.axisOpts := by
  simp only [update_corr_visibility]
  repeat' split
  all_goals rfl

theorem ucv_selectXOpts (w : World) (st : MainState) :
    (update_corr_visibility w st).selectXOpts = st.selectXOpts := by
  simp only [update_corr_visibility]
  repeat' split
  all_goals rfl

theorem ucv_selectYOpts (w : World) (st : MainState) :
    (update_corr_visibility w st).selectYOpts = st.selectYOpts := by
  simp only [update_corr_visibility]
  repeat' split
  all_goals rfl

theorem ucv_groupOpts (w : World) (st : MainState) :
    (update_corr_visibility w st).groupOpts = st.groupOpts := by
  simp only [update_corr_visibility]
  repeat' split
  all_goals rfl

theorem ucv_flagCol (w : World) (st : MainState) :
    (update_corr_visibility w st).flagCol = st.flagCol := by
  simp only [update_corr_visibility]
  repeat' split
  all_goals rfl

/-! ### Concrete instances used by witnesses and counterexamples -/

/-- The document state right after `bokeh_app` builds its widgets, before
any Measurement Set is chosen (with an empty candidate list). -/
def blankState : MainState :=
  { msOptions := [], msValue := none, selectedMs := none, axisOpts := [],
    visColInfo := [], selectXOpts := [], selectXVal := none, selectYOpts := [],
    selectYVal := none, groupOpts := ["None"], groupVal := "None",
    corrOptions := [], corrValue := [], corrVisible := false,
    plotDisabled := true, exportDisabled := true, status := "",
    title := "Scribble Plot", render := none, exports := [], flagCol := none }

/-- A 1-row Measurement Set main table with 2 channels and 2 correlations:
one DATA column and a FLAG column flagging channel 1 of correlation 0 and
channel 0 of correlation 1. -/
def msEx1 : MSTable :=
  ⟨[("DATA", .d3 [[[Cell.num 1, Cell.num 2], [Cell.num 3, Cell.num 4]]]),
    ("FLAG", .d3 [[[Cell.bl false, Cell.bl true], [Cell.bl true, Cell.bl false]]])],
   [("DATA", [2, 2])]⟩

/-- A POLARIZATION subtable with the four linear correlation codes. -/
def polTableEx : MSTable :=
  ⟨[("CORR_TYPE", .d2 [[Cell.num 9, Cell.num 10, Cell.num 11, Cell.num 12]])], []⟩

/-- An empty filesystem. -/
def fsEx : FileSystem :=
  ⟨fun _ => [], fun _ => false, fun _ => false, fun s => s⟩

/-- A world exposing only the POLARIZATION subtable of `/ms`. -/
def worldEx3 : World :=
  ⟨fsEx, fun s => if s = "/ms/POLARIZATION" then some polTableEx else none⟩

/-- A world with no tables anywhere. -/
def worldNone : World := ⟨fsEx, fun _ => none⟩

/-- A one-row table with a scalar TIME column and an all-flagged 1-D FLAG
column. -/
def msEx4 : MSTable :=
  ⟨[("TIME", .d1 [Cell.num 1]), ("FLAG", .d1 [Cell.bl true])], []⟩

/-- A world exposing `msEx4` at `/ms4`. -/
def worldEx4 : World :=
  ⟨fsEx, fun s => if s = "/ms4" then some msEx4 else none⟩

/-- The main-app state with `/ms4` selected and TIME on both axes. -/
def stEx4 : MainState :=
  { blankState with
    selectedMs := some "/ms4",
    selectXVal := some "TIME",
    selectYVal := some "TIME",
    flagCol := some "FLAG" }

/-- The (empty) DataFrame `run_plot` loads in the all-flagged scenario. -/
def dfEx4 : DataFrame := ⟨[("TIME", []), ("FLAG", [])]⟩

/-- A 1-row, 1-channel, 1-correlation table with TIME, DATA and FLAG. -/
def msEx6 : MSTable :=
  ⟨[("TIME", .d1 [Cell.num 0]),
    ("DATA", .d3 [[[Cell.num 1]]]),
    ("FLAG", .d3 [[[Cell.bl false]]])],
   [("DATA", [1, 1])]⟩

/-- A world exposing `msEx6` at `/ms6`. -/
def worldEx6 : World :=
  ⟨fsEx, fun s => if s = "/ms6" then some msEx6 else none⟩

/-- The main-app state right after typing `/ms6` into the MS selector. -/
def stEx6 : MainState := { blankState with msValue := some "/ms6" }

/-- The main-app state plotting DATA against DATA on `/ms6` with the single
correlation selected. -/
def stEx2 : MainState :=
  { blankState with
    selectedMs := some "/ms6",
    selectXVal := some "DATA",
    selectYVal := some "DATA",
    corrVisible := true,
    corrOptions := ["RR"],
    corrValue := ["RR"],
    flagCol := some "FLAG" }

/-- A 1-row table with 2 channels and 2 correlations (DATA, FLAG) plus a
per-row scalar TIME column: the flattened lengths 2 (sliced DATA),
1 (TIME) and 4 (FLAG as a data column) disagree. -/
def msExMix : MSTable :=
  ⟨[("DATA", .d3 [[[Cell.num 1, Cell.num 2], [Cell.num 3, Cell.num 4]]]),
    ("TIME", .d1 [Cell.num 10]),
    ("FLAG", .d3 [[[Cell.bl false, Cell.bl false], [Cell.bl false, Cell.bl false]]])],
   [("DATA", [2, 2])]⟩

/-- A world exposing `msExMix` at `/msmix`. -/
def worldExMix : World :=
  ⟨fsEx, fun s => if s = "/msmix" then some msExMix else none⟩

/-- The main-app state plotting DATA against the per-row scalar TIME on
`/msmix`, with correlation RR selected. -/
def stExMix : MainState :=
  { blankState with
    selectedMs := some "/msmix",
    selectXVal := some "DATA",
    selectYVal := some "TIME",
    corrVisible := true,
    corrOptions := ["RR", "LL"],
    corrValue := ["RR"],
    flagCol := some "FLAG" }

/-- A filesystem whose current directory holds one MS-like directory
`a.ms` (with a TABLES entry) and one plain file `b.txt`. -/
def fsEx10 : FileSystem :=
  ⟨fun p => if p = "." then ["a.ms", "b.txt"] else [],
   fun p => p == "./a.ms",
   fun p => p == "./a.ms/TABLES",
   fun s => s⟩

/-- An initial build-version document state. -/
def bsEx5 : BuildState := ⟨"", none⟩

/-! ### Claims -/

/-- C1: for a table with a boolean FLAG column, `load_ms_data` with
`flag_col='FLAG'` returns, for each requested column, exactly the samples
whose corresponding flag value is False, unchanged and in their original
order, provided the flattened flag array and each flattened data array
have equal length. -/
theorem claim1_flag_filtering (t : MSTable) (ci : Option Nat) (cs : List String)
    (flags : List Bool)
    (hmem : "FLAG" ∈ t.colnames)
    (hfv : flagVals t ci "FLAG" = some flags)
    (hcols : ∀ c ∈ cs, ∃ xs, processCol t ci c = some xs ∧ xs.length = flags.length) :
    ∃ df, load_ms_data t cs ci (some "FLAG") = some df ∧
      ∀ c ∈ cs, df.lookup c = some (keepUnflagged flags ((processCol t ci c).getD [])) := by
  refine ⟨_, load_ms_data_flag_spec t ci cs flags hmem hfv hcols, ?_⟩
  intro c hc
  simpa [DataFrame.lookup] using
    lookup_map_pair (fun d => keepUnflagged flags ((processCol t ci d).getD [])) cs c hc

/-- Witness for C1 on `msEx1` with correlation 0 selected: the flag array
is `[false, true]`, and the returned DATA column keeps exactly the first
(unflagged) sample. -/
theorem claim1_witness :
    ("FLAG" ∈ msEx1.colnames ∧ flagVals msEx1 (some 0) "FLAG" = some [false, true]) ∧
    (∃ df, load_ms_data msEx1 ["DATA"] (some 0) (some "FLAG") = some df ∧
      ∀ c ∈ ["DATA"], df.lookup c =
        some (keepUnflagged [false, true] ((processCol msEx1 (some 0) c).getD []))) :=
  ⟨⟨by decide, by rfl⟩,
   claim1_flag_filtering msEx1 (some 0) ["DATA"] [false, true] (by decide) (by rfl)
     (by
       intro c hc
       simp only [List.mem_singleton] at hc
       subst hc
       exact ⟨[Cell.num 1, Cell.num 3], rfl, rfl⟩)⟩

/-- C3: on a successful CORR_TYPE read, `get_corr_labels` maps code 5 to
RR, 6 to RL, 7 to LR, 8 to LL, 9 to XX, 10 to XY, 11 to YX and 12 to YY,
preserving the order of the codes. -/
theorem claim3_corr_label_map (w : World) (p v : String) (cts : List Int)
    (h : readCorrTypes w p = some cts) :
    get_corr_labels w p v = some (cts.map corrLabel) ∧
    (∀ i, (cts.map corrLabel).get? i = (cts.get? i).map corrLabel) ∧
    corrLabel 5 = "RR" ∧ corrLabel 6 = "RL" ∧ corrLabel 7 = "LR" ∧ corrLabel 8 = "LL" ∧
    corrLabel 9 = "XX" ∧ corrLabel 10 = "XY" ∧ corrLabel 11 = "YX" ∧ corrLabel 12 = "YY" := by
  refine ⟨by simp [get_corr_labels, h], fun i => by simp, ?_⟩
  refine ⟨by decide, by decide, by decide, by decide, by decide, by decide, by decide, by decide⟩

/-- Witness for C3: reading codes 9..12 from `/ms`'s POLARIZATION subtable
yields the linear labels in order. -/
theorem claim3_witness :
    readCorrTypes worldEx3 "/ms" = some [9, 10, 11, 12] ∧
    get_corr_labels worldEx3 "/ms" "DATA" = some ["XX", "XY", "YX", "YY"] := by
  have h := claim3_corr_label_map worldEx3 "/ms" "DATA" [9, 10, 11, 12] (by rfl)
  exact ⟨by rfl, h.1⟩

/-- C7: pressing Export writes the currently rendered figure (title and
render contents) as a PNG to the fixed filename `scribble_export.png`,
reports the export in the status text, and leaves the rendered plot and
title unchanged. -/
theorem claim7_export (st : MainState) :
    (export_png st).exports = st.exports ++ [("scribble_export.png", (st.title, st.render))] ∧
    (export_png st).status = "Plot exported to scribble_export.png" ∧
    (export_png st).render = st.render ∧
    (export_png st).title = st.title :=
  ⟨rfl, rfl, rfl, rfl⟩

/-- C8: the `ms_path` command-line argument is ignored: the application
served by `plot_gui p` has exactly the initial state of `plot_gui None`
(the local `selected_ms` dict of `app_wrapper` is never passed on), so no
Measurement Set is pre-selected.  All subsequent behaviour is a function
of this state and the user's events, hence identical as well. -/
theorem claim8_ms_path_ignored (w : World) (p : String) :
    plot_gui (some p) w = plot_gui none w ∧ (plot_gui (some p) w).selectedMs = none :=
  ⟨rfl, rfl⟩

/-- C9: only the first selected correlation matters to `run_plot`: the
observable plot outcome (render contents, title, status) is the same for
selection `v0 :: rest` as for `[v0]`, and the correlation index handed to
`load_ms_data` is computed from the first selected label alone. -/
theorem claim9_first_corr_only :
    (∀ (w : World) (st : MainState) (v0 : String) (rest : List String),
      (run_plot w { st with corrValue := v0 :: rest }).map
          (fun s => (s.render, s.title, s.status)) =
      (run_plot w { st with corrValue := [v0] }).map
          (fun s => (s.render, s.title, s.status))) ∧
    (∀ (opts : List String) (v0 : String) (rest : List String),
      corrIdxComputed true opts (v0 :: rest) = (pyIndex opts v0).map some) := by
  constructor
  · intro w st v0 rest
    obtain ⟨mo, mv, sm, ao, vci, sxo, sxv, syo, syv, gro, grv, co, cv, cviss,
      pd, ed, stt, ttl, rnd, exs, fc⟩ := st
    dsimp only [run_plot]
    cases sm with
    | none => rfl
    | some p =>
      cases sxv with
      | none => cases syv <;> rfl
      | some x =>
        cases syv with
        | none => rfl
        | some y =>
          cases cviss with
          | false =>
            dsimp only [corrIdxComputed, groupColOf]
            cases w.tables (by exact p) with
            | none => rfl
            | some t =>
              rw [Option.map_map, Option.map_map]
              apply Option.map_congr
              intro df _
              dsimp only [Function.comp, plot_outcome]
              cases df.isEmpty <;> rfl
          | true =>
            dsimp only [corrIdxComputed, groupColOf]
            cases pyIndex co v0 with
            | none => rfl
            | some i =>
              cases w.tables (by exact p) with
              | none => rfl
              | some t =>
                rw [Option.map_map, Option.map_map]
                apply Option.map_congr
                intro df _
                dsimp only [Function.comp, plot_outcome]
                cases df.isEmpty <;> rfl
  · intro opts v0 rest
    cases h : pyIndex opts v0 <;> simp [corrIdxComputed, h]

/-- C2, counterexample: pressing Plot does NOT succeed for every pair of
axis columns.  With a visibility column (2 channels, 2 correlations,
sliced to flattened length 2) on one axis and the per-row scalar TIME
column (length 1) on the other, the flag mask's length does not match
TIME (nor does FLAG's own flattened length 4), so `load_ms_data` raises
and the Plot callback dies with an uncaught exception. -/
theorem claim2_counterexample :
    run_plot worldExMix stExMix = none ∧
    load_ms_data msExMix ["DATA", "TIME", "FLAG"] (some 0) (some "FLAG") = none := by
  constructor <;> rfl

/-- C2, amended: pressing Plot succeeds — `load_ms_data` returns a
DataFrame in which every requested column has the same length and the
callback completes — precisely under the additional condition that every
requested column's flattened (corr-sliced) array has the same length as
the flag array; mixing a visibility column having a non-trivial
channel/correlation axis with a per-row scalar column violates this and
makes the Plot callback raise instead. -/
theorem claim2_amended (w : World) (st : MainState) (p xcol ycol : String)
    (ci : Option Nat) (t : MSTable) (flags : List Bool)
    (hms : st.selectedMs = some p)
    (hx : st.selectXVal = some xcol) (hy : st.selectYVal = some ycol)
    (hci : corrIdxComputed st.corrVisible st.corrOptions st.corrValue = some ci)
    (ht : w.tables p = some t)
    (hfc : st.flagCol = some "FLAG")
    (hmem : "FLAG" ∈ t.colnames)
    (hfv : flagVals t ci "FLAG" = some flags)
    (hcols : ∀ c ∈ usecolsOf xcol ycol (groupColOf st) (some "FLAG"),
      ∃ xs, processCol t ci c = some xs ∧ xs.length = flags.length) :
    ∃ df, load_ms_data t (usecolsOf xcol ycol (groupColOf st) (some "FLAG")) ci
        (some "FLAG") = some df ∧
      (∀ q ∈ df.cols, ∀ r ∈ df.cols, q.2.length = r.2.length) ∧
      ∃ st2, run_plot w st = some st2 := by
  have hspec := load_ms_data_flag_spec t ci _ flags hmem hfv hcols
  refine ⟨_, hspec, ?_, ?_⟩
  · intro q hq r hr
    obtain ⟨c, hc, rfl⟩ := List.mem_map.mp hq
    obtain ⟨d, hd, rfl⟩ := List.mem_map.mp hr
    obtain ⟨xs, hxs, hlxs⟩ := hcols c hc
    obtain ⟨ys, hys, hlys⟩ := hcols d hd
    simp only
    rw [keepUnflagged_length flags _ (by simp [hxs, hlxs]),
        keepUnflagged_length flags _ (by simp [hys, hlys])]
  · have hrun : run_plot w st = some (plot_outcome xcol ycol
        (if st.corrVisible then some st.corrValue else none)
        ⟨(usecolsOf xcol ycol (groupColOf st) (some "FLAG")).map
          (fun c => (c, keepUnflagged flags ((processCol t ci c).getD [])))⟩ st) := by
      simp only [run_plot, hms, hx, hy, hci, ht, hfc, hspec, Option.map_some']
    exact ⟨_, hrun⟩

/-- Witness for C2 (amended) on the 1-channel 1-correlation table
`msEx6`, where all flattened lengths agree: the plot succeeds. -/
theorem claim2_witness :
    (flagVals msEx6 (some 0) "FLAG" = some [false]) ∧
    (∃ df, load_ms_data msEx6
        (usecolsOf "DATA" "DATA" (groupColOf stEx2) (some "FLAG")) (some 0)
        (some "FLAG") = some df ∧
      (∀ q ∈ df.cols, ∀ r ∈ df.cols, q.2.length = r.2.length) ∧
      ∃ st2, run_plot worldEx6 stEx2 = some st2) :=
  ⟨by rfl,
   claim2_amended worldEx6 stEx2 "/ms6" "DATA" "DATA" (some 0) msEx6 [false]
     rfl rfl rfl (by rfl) (by rfl) rfl (by decide) (by rfl)
     (by
       intro c hc
       have he : usecolsOf "DATA" "DATA" (groupColOf stEx2) (some "FLAG") =
           ["DATA", "FLAG"] := by rfl
       rw [he] at hc
       rcases List.mem_cons.mp hc with rfl | hc2
       · exact ⟨[Cell.num 1], rfl, rfl⟩
       · rcases List.mem_cons.mp hc2 with rfl | hc3
         · exact ⟨[Cell.bl false], rfl, rfl⟩
         · cases hc3)⟩

/-- C4: whenever the loaded DataFrame is empty, pressing Plot reports the
"no data" status message and returns without rendering: the previously
rendered image and the plot title are unchanged. -/
theorem claim4_empty_df_no_data (w : World) (st : MainState) (p xcol ycol : String)
    (ci : Option Nat) (t : MSTable) (df : DataFrame)
    (hms : st.selectedMs = some p)
    (hx : st.selectXVal = some xcol) (hy : st.selectYVal = some ycol)
    (hci : corrIdxComputed st.corrVisible st.corrOptions st.corrValue = some ci)
    (ht : w.tables p = some t)
    (hdf : load_ms_data t (usecolsOf xcol ycol (groupColOf st) st.flagCol) ci
      st.flagCol = some df)
    (hempty : df.isEmpty = true) :
    ∃ st2, run_plot w st = some st2 ∧
      st2.status = "No data to plot (possible all flagged/filtered?)" ∧
      st2.render = st.render ∧ st2.title = st.title := by
  refine ⟨{ st with status := "No data to plot (possible all flagged/filtered?)" },
    ?_, rfl, rfl, rfl⟩
  simp [run_plot, hms, hx, hy, hci, ht, hdf, plot_outcome, hempty]

/-- Witness for C4: on `msEx4` every sample is flagged, so the DataFrame
comes back empty and Plot only reports the "no data" message. -/
theorem claim4_witness :
    (load_ms_data msEx4 (usecolsOf "TIME" "TIME" (groupColOf stEx4) stEx4.flagCol)
        none stEx4.flagCol = some dfEx4 ∧ dfEx4.isEmpty = true) ∧
    (∃ st2, run_plot worldEx4 stEx4 = some st2 ∧
      st2.status = "No data to plot (possible all flagged/filtered?)" ∧
      st2.render = stEx4.render ∧ st2.title = stEx4.title) :=
  ⟨⟨by rfl, by rfl⟩,
   claim4_empty_df_no_data worldEx4 stEx4 "/ms4" "TIME" "TIME" none msEx4 dfEx4
     rfl rfl rfl (by rfl) (by rfl) (by rfl) (by rfl)⟩

/-- C5: a path that does not name an existing Measurement Set directory is
rejected by the build-version loader — error status, no controls, nothing
loaded — and with no Measurement Set selected at all, pressing Plot in the
main version only reports an error status (nothing is loaded or
rendered). -/
theorem claim5_invalid_path_rejected :
    (∀ (w : World) (v : String) (st : BuildState),
      ¬ (w.fs.isDir v.trim = true ∧ w.fs.pathExists (pjoin v.trim "TABLES") = true) →
      on_load w v st = { st with
        status := "<span style=\x27color:red;\x27>Not a valid MS directory path!</span>",
        plotLayout := none })
    ∧ (∀ (w : World) (st : MainState), st.selectedMs = none →
      run_plot w st = some { st with status := "No Measurement Set selected!" }) := by
  constructor
  · exact fun w v st h => on_load_reject w v st h
  · intro w st h
    simp [run_plot, h]

/-- Witness for C5: the empty filesystem rejects `nope`, and Plot on the
blank state reports that no Measurement Set is selected. -/
theorem claim5_witness :
    (¬ (worldNone.fs.isDir "nope".trim = true ∧
        worldNone.fs.pathExists (pjoin "nope".trim "TABLES") = true) ∧
      on_load worldNone "nope" bsEx5 = { bsEx5 with
        status := "<span style=\x27color:red;\x27>Not a valid MS directory path!</span>",
        plotLayout := none }) ∧
    (blankState.selectedMs = none ∧
      run_plot worldNone blankState =
        some { blankState with status := "No Measurement Set selected!" }) :=
  ⟨⟨by decide, claim5_invalid_path_rejected.1 worldNone "nope" bsEx5 (by decide)⟩,
   ⟨rfl, claim5_invalid_path_rejected.2 worldNone blankState rfl⟩⟩

/-- C6: the columns treated as visibility columns are exactly
DATA/CORRECTED_DATA/MODEL_DATA/RESIDUAL_DATA (only they are corr-sliced,
and `load_ms_columns` records exactly those of them that are present);
FLAG is excluded from the X/Y/group axis options and is the only column
ever named as flag-mask source; the correlation selector is triggered
exactly by a visibility column on either axis; and the correlation labels
come from the POLARIZATION subtable's CORR_TYPE column alone whenever that
read succeeds. -/
theorem claim6_interface :
    (VIS_COLUMNS = ["DATA", "CORRECTED_DATA", "MODEL_DATA", "RESIDUAL_DATA"])
    ∧ (∀ (t : MSTable) (ci : Option Nat) (c : String), c ∉ VIS_COLUMNS →
        processCol t ci c = (t.getcol c).map NDArray.flatten)
    ∧ (∀ (t : MSTable) (c : String),
        (((load_ms_columns t).2.lookup c).isSome) ↔ (c ∈ VIS_COLUMNS ∧ c ∈ t.colnames))
    ∧ (∀ (w : World) (st : MainState) (v : String) (t : MSTable),
        st.msValue = some v → v ≠ "" → w.tables (w.fs.abspath v) = some t →
        2 ≤ (t.colnames.filter (fun c => c ≠ "FLAG")).length →
        (ms_chosen w st).axisOpts = t.colnames.filter (fun c => c ≠ "FLAG") ∧
        "FLAG" ∉ (ms_chosen w st).axisOpts ∧
        (ms_chosen w st).selectXOpts = t.colnames.filter (fun c => c ≠ "FLAG") ∧
        (ms_chosen w st).selectYOpts = t.colnames.filter (fun c => c ≠ "FLAG") ∧
        (ms_chosen w st).groupOpts = "None" :: t.colnames.filter (fun c => c ≠ "FLAG") ∧
        (ms_chosen w st).flagCol = (if "FLAG" ∈ t.colnames then some "FLAG" else none))
    ∧ (∀ (w : World) (st : MainState),
        (update_corr_visibility w st).corrVisible =
          (memVisCol st.selectXVal st.visColInfo || memVisCol st.selectYVal st.visColInfo))
    ∧ (∀ (w : World) (p v : String) (cts : List Int), readCorrTypes w p = some cts →
        get_corr_labels w p v = some (cts.map corrLabel)) := by
  refine ⟨rfl, ?_, ?_, ?_, ?_, ?_⟩
  · intro t ci c h
    cases hg : t.getcol c <;> simp [processCol, hg, h]
  · intro t c
    simpa [load_ms_columns] using
      lookup_filterMap_isSome VIS_COLUMNS t.colnames (visInfoOf t) c
  · intro w st v t hmv hv ht h2
    have h0 : (t.colnames.filter (fun c => c ≠ "FLAG")).get? 0 =
        some ((t.colnames.filter (fun c => c ≠ "FLAG")).get ⟨0, by omega⟩) :=
      List.get?_eq_get (by omega)
    have h1 : (t.colnames.filter (fun c => c ≠ "FLAG")).get? 1 =
        some ((t.colnames.filter (fun c => c ≠ "FLAG")).get ⟨1, by omega⟩) :=
      List.get?_eq_get (by omega)
    have hax : (ms_chosen w st).axisOpts = t.colnames.filter (fun c => c ≠ "FLAG") := by
      simp only [ms_chosen, hmv, if_neg hv, ht, load_ms_columns, h0, h1, ucv_axisOpts]
    refine ⟨hax, ?_, ?_, ?_, ?_, ?_⟩
    · rw [hax]
      simp
    · simp only [ms_chosen, hmv, if_neg hv, ht, load_ms_columns, h0, h1, ucv_selectXOpts]
    · simp only [ms_chosen, hmv, if_neg hv, ht, load_ms_columns, h0, h1, ucv_selectYOpts]
    · simp only [ms_chosen, hmv, if_neg hv, ht, load_ms_columns, h0, h1, ucv_groupOpts]
    · simp only [ms_chosen, hmv, if_neg hv, ht, load_ms_columns, h0, h1]
  · intro w st
    simp only [update_corr_visibility]
    repeat' split
    all_goals rfl
  · intro w p v cts h
    simp [get_corr_labels, h]

/-- Witness for C6: concrete instances of each conjunct — the non-vis TIME
column is only flattened, DATA is recorded as a visibility column of
`msEx6`, choosing `/ms6` builds FLAG-free axis options and `flag_col =
FLAG`, the blank state shows no correlation selector, and the CORR_TYPE
codes 9..12 map to their labels. -/
theorem claim6_witness :
    (processCol msEx6 none "TIME" = (msEx6.getcol "TIME").map NDArray.flatten) ∧
    ((((load_ms_columns msEx6).2.lookup "DATA").isSome) ↔
      ("DATA" ∈ VIS_COLUMNS ∧ "DATA" ∈ msEx6.colnames)) ∧
    ((ms_chosen worldEx6 stEx6).axisOpts = msEx6.colnames.filter (fun c => c ≠ "FLAG") ∧
      "FLAG" ∉ (ms_chosen worldEx6 stEx6).axisOpts ∧
      (ms_chosen worldEx6 stEx6).selectXOpts = msEx6.colnames.filter (fun c => c ≠ "FLAG") ∧
      (ms_chosen worldEx6 stEx6).selectYOpts = msEx6.colnames.filter (fun c => c ≠ "FLAG") ∧
      (ms_chosen worldEx6 stEx6).groupOpts =
        "None" :: msEx6.colnames.filter (fun c => c ≠ "FLAG") ∧
      (ms_chosen worldEx6 stEx6).flagCol =
        (if "FLAG" ∈ msEx6.colnames then some "FLAG" else none)) ∧
    ((update_corr_visibility worldNone blankState).corrVisible =
      (memVisCol blankState.selectXVal blankState.visColInfo ||
        memVisCol blankState.selectYVal blankState.visColInfo)) ∧
    (get_corr_labels worldEx3 "/ms" "DATA" = some ([9, 10, 11, 12].map corrLabel)) :=
  ⟨claim6_interface.2.1 msEx6 none "TIME" (by decide),
   claim6_interface.2.2.1 msEx6 "DATA",
   claim6_interface.2.2.2.1 worldEx6 stEx6 "/ms6" msEx6 rfl (by decide) (by rfl) (by decide),
   claim6_interface.2.2.2.2.1 worldNone blankState,
   claim6_interface.2.2.2.2.2 worldEx3 "/ms" "DATA" [9, 10, 11, 12] (by rfl)⟩

/-- C10: `list_possible_ms_dirs` returns exactly the listed entries that
are directories containing a `TABLES` entry, and the build-version loader
rejects (no layout, error status) every path not satisfying that
predicate. -/
theorem claim10_ms_candidates :
    (∀ (fs : FileSystem) (path f : String),
      f ∈ list_possible_ms_dirs fs path ↔
        (f ∈ fs.listdir path ∧ fs.isDir (pjoin path f) = true ∧
         fs.pathExists (pjoin (pjoin path f) "TABLES") = true))
    ∧ (∀ (w : World) (v : String) (st : BuildState),
      ¬ (w.fs.isDir v.trim = true ∧ w.fs.pathExists (pjoin v.trim "TABLES") = true) →
      (on_load w v st).plotLayout = none ∧
      (on_load w v st).status =
        "<span style=\x27color:red;\x27>Not a valid MS directory path!</span>") := by
  constructor
  · intro fs path f
    simp [list_possible_ms_dirs, List.mem_filter, and_assoc]
  · intro w v st h
    rw [on_load_reject w v st h]
    exact ⟨rfl, rfl⟩

/-- Witness for C10: `a.ms` is offered on `fsEx10` (it is a directory with
a TABLES entry), and the empty filesystem's loader rejects `bad`. -/
theorem claim10_witness :
    ("a.ms" ∈ list_possible_ms_dirs fsEx10 "." ↔
      ("a.ms" ∈ fsEx10.listdir "." ∧ fsEx10.isDir (pjoin "." "a.ms") = true ∧
       fsEx10.pathExists (pjoin (pjoin "." "a.ms") "TABLES") = true)) ∧
    ((on_load worldNone "bad" bsEx5).plotLayout = none ∧
      (on_load worldNone "bad" bsEx5).status =
        "<span style=\x27color:red;\x27>Not a valid MS directory path!</span>") :=
  ⟨claim10_ms_candidates.1 fsEx10 "." "a.ms",
   claim10_ms_candidates.2 worldNone "bad" bsEx5 (by decide)⟩

end Scribble
